import Mathlib

/-
Verification development for the UFO-sightings query library
(src/TEO-Avistamientos-main/src/avistamientos.py).

The Python module is shallowly embedded: the `Avistamiento` NamedTuple
becomes a Lean structure with structural (decidable) equality, Python
`datetime`/`date` values become explicit records of numeric fields,
Python dicts (insertion-ordered, updated in place) become association
lists with `dictGet`/`dictSet`, Python sets become `Finset`, and the
haversine distance function — imported from the `coordenadas` module,
which is not part of this repository's sources — is taken as an explicit
function parameter wherever the embedded code calls it.
-/

namespace Avist

/-- Embeds `Coordenadas` (NamedTuple of two floats); coordinates are
modelled as rationals. -/
structure Coordenadas where
  latitud : ℚ
  longitud : ℚ
deriving DecidableEq, Repr

/-- Embeds Python `datetime.datetime` at the precision used by the
program: the parse format `%m/%d/%Y %H:%M` carries no seconds. -/
structure DateTime where
  year : ℕ
  month : ℕ
  day : ℕ
  hour : ℕ
  minute : ℕ
deriving DecidableEq, Repr

/-- Embeds Python `datetime.date`. -/
structure Fecha where
  year : ℕ
  month : ℕ
  day : ℕ
deriving DecidableEq, Repr

/-- Embeds the `.date()` method of `datetime.datetime`. -/
def DateTime.date (dt : DateTime) : Fecha :=
  ⟨dt.year, dt.month, dt.day⟩

/-- Embeds the `Avistamiento` NamedTuple (timestamp, city, state, shape,
duration in seconds, free-text comment, location). -/
structure Avistamiento where
  fechahora : DateTime
  ciudad : String
  estado : String
  forma : String
  duracion : ℤ
  comentarios : String
  ubicacion : Coordenadas
deriving DecidableEq, Repr

/-! ### Python value comparisons

Python compares `datetime` values field by field and NamedTuples as
tuples, lexicographically, strings by code point.  The following boolean
orders reproduce that. -/

/-- Python `<` on `datetime.datetime`: lexicographic on the fields. -/
def dtLtB (a b : DateTime) : Bool :=
  if a.year ≠ b.year then decide (a.year < b.year)
  else if a.month ≠ b.month then decide (a.month < b.month)
  else if a.day ≠ b.day then decide (a.day < b.day)
  else if a.hour ≠ b.hour then decide (a.hour < b.hour)
  else decide (a.minute < b.minute)

/-- Python `<` on `datetime.date`: lexicographic on the fields. -/
def fLtB (a b : Fecha) : Bool :=
  if a.year ≠ b.year then decide (a.year < b.year)
  else if a.month ≠ b.month then decide (a.month < b.month)
  else decide (a.day < b.day)

/-- Python `<=` on `datetime.date`. -/
def fLeB (a b : Fecha) : Bool :=
  decide (a = b) || fLtB a b

/-- Python `<` on strings: lexicographic comparison of code points. -/
def strLtAux : List Char → List Char → Bool
  | [], [] => false
  | [], _ :: _ => true
  | _ :: _, [] => false
  | a :: as, b :: bs =>
      if a < b then true
      else if b < a then false
      else strLtAux as bs

/-- Python `<` on `str`. -/
def pyStrLt (a b : String) : Bool :=
  strLtAux a.data b.data

/-- Python `<` on `Coordenadas` (tuple comparison). -/
def coordLtB (a b : Coordenadas) : Bool :=
  if a.latitud ≠ b.latitud then decide (a.latitud < b.latitud)
  else decide (a.longitud < b.longitud)

/-- Python `<` on `Avistamiento`: NamedTuple comparison, i.e.
lexicographic field by field with the timestamp first. -/
def avLt (a b : Avistamiento) : Bool :=
  if a.fechahora ≠ b.fechahora then dtLtB a.fechahora b.fechahora
  else if a.ciudad ≠ b.ciudad then pyStrLt a.ciudad b.ciudad
  else if a.estado ≠ b.estado then pyStrLt a.estado b.estado
  else if a.forma ≠ b.forma then pyStrLt a.forma b.forma
  else if a.duracion ≠ b.duracion then decide (a.duracion < b.duracion)
  else if a.comentarios ≠ b.comentarios then pyStrLt a.comentarios b.comentarios
  else coordLtB a.ubicacion b.ubicacion

/-! ### Python dict model

Python 3.7+ dicts preserve insertion order; assigning to an existing key
keeps its position, assigning to a fresh key appends it.  We model them
as association lists. -/

/-- Python `d[k]` lookup / `k in d` test combined: the value stored at
`k`, if any. -/
def dictGet {α β : Type} [DecidableEq α] : List (α × β) → α → Option β
  | [], _ => none
  | (k2, v) :: rest, k => if k2 = k then some v else dictGet rest k

/-- Python `d[k] = v`: replaces in place when the key is present,
appends otherwise. -/
def dictSet {α β : Type} [DecidableEq α] : List (α × β) → α → β → List (α × β)
  | [], k, v => [(k, v)]
  | (k2, v2) :: rest, k, v =>
      if k2 = k then (k, v) :: rest else (k2, v2) :: dictSet rest k v

/-! ### 4.3 Número de avistamientos por año -/

/-- Embeds `numero_avistamientos_por_año` (source lines 416-434): this
is the function written with a plain dict; a year already present has
its counter incremented, a year met for the first time is stored with
value `0`. -/
def numero_avistamientos_por_anyo (avistamientos : List Avistamiento) :
    List (ℕ × ℕ) :=
  avistamientos.foldl
    (fun num_av_por_anyo a =>
      let anyo := a.fechahora.year
      match dictGet num_av_por_anyo anyo with
      | some v => dictSet num_av_por_anyo anyo (v + 1)
      | none => dictSet num_av_por_anyo anyo 0)
    []

/-- Embeds `numero_avistamientos_por_año2` (source lines 436-438):
`Counter(a.fechahora.year for a in avistamientos)`, i.e. the count of
each year in encounter order; a year met for the first time is stored
with value `1`. -/
def numero_avistamientos_por_anyo2 (avistamientos : List Avistamiento) :
    List (ℕ × ℕ) :=
  avistamientos.foldl
    (fun cnt a =>
      let anyo := a.fechahora.year
      match dictGet cnt anyo with
      | some v => dictSet cnt anyo (v + 1)
      | none => dictSet cnt anyo 1)
    []

/-! ### 4.1 Avistamientos por fecha -/

/-- Loop body of `avistamientos_por_fecha` (source lines 367-370): the
code reads `if f in a_por_fecha: a_por_fecha[f].add(a)` and has no
`else` branch, so a date that is not yet a key is never inserted. -/
def avistamientos_por_fecha_step (a_por_fecha : List (Fecha × Finset Avistamiento))
    (a : Avistamiento) : List (Fecha × Finset Avistamiento) :=
  let f := a.fechahora.date
  match dictGet a_por_fecha f with
  | some s => dictSet a_por_fecha f (insert a s)
  | none => a_por_fecha

/-- Embeds `avistamientos_por_fecha` (source lines 355-371). -/
def avistamientos_por_fecha (avistamientos : List Avistamiento) :
    List (Fecha × Finset Avistamiento) :=
  avistamientos.foldl avistamientos_por_fecha_step []

/-! ### Concrete sample records -/

/-- Sample location used by concrete evaluations. -/
def coordReno : Coordenadas := ⟨(395 : ℚ) / 10, -(1198 : ℚ) / 10⟩

/-- A sighting dated 2019-03-04 10:00. -/
def av2019 : Avistamiento :=
  ⟨⟨2019, 3, 4, 10, 0⟩, "Reno", "NV", "circle", 60, "bright light", coordReno⟩

/-- A sighting dated 2020-01-01 11:00. -/
def av2020 : Avistamiento :=
  ⟨⟨2020, 1, 1, 11, 0⟩, "Reno", "NV", "circle", 120, "steady", coordReno⟩

/-- Claim C1: for a dataset with one sighting in each of two different
years, `numero_avistamientos_por_año` is claimed to return a mapping
with two entries, each of value 1.  The code instead initializes a
newly met year to 0, so both entries carry value 0; the `Counter`
variant `numero_avistamientos_por_año2` does return value 1 for each
year. -/
theorem numero_avistamientos_por_anyo_init_cero :
    numero_avistamientos_por_anyo [av2019, av2020] = [(2019, 0), (2020, 0)] ∧
    numero_avistamientos_por_anyo2 [av2019, av2020] = [(2019, 1), (2020, 1)] := by
  constructor <;> rfl

/-- The step function of `avistamientos_por_fecha` can never turn the
empty dict into a non-empty one. -/
theorem avistamientos_por_fecha_foldl_nil (l : List Avistamiento) :
    List.foldl avistamientos_por_fecha_step [] l = [] := by
  induction l with
  | nil => rfl
  | cons a l ih =>
      have h : avistamientos_por_fecha_step [] a = [] := rfl
      simpa [h] using ih

/-- Claim C2: `avistamientos_por_fecha` is claimed to return a mapping
whose key set is exactly the set of dates with at least one sighting.
Because the loop only adds to keys that are already present and never
creates a key, the function returns the empty mapping on every input,
so any non-empty input is a counterexample. -/
theorem avistamientos_por_fecha_siempre_vacio
    (avistamientos : List Avistamiento) :
    avistamientos_por_fecha avistamientos = [] := by
  simpa [avistamientos_por_fecha] using
    avistamientos_por_fecha_foldl_nil avistamientos

/-! ### 2.1 Número de avistamientos producidos en una fecha

`numero_avistamientos_fecha` (source lines 57-78) guards its loop with
`isinstance(fecha, date)`; a non-date argument (modelled by `none`)
falls into the `else` branch, which executes `print("")` and lets the
function return the untouched counter 0.  The result is modelled as the
pair (returned value, list of printed lines). -/

/-- Embeds `numero_avistamientos_fecha`.  The dead disjunct
`fecha is None or ...` of source line 74 is kept as written: it can
never hold inside the `isinstance` branch. -/
def numero_avistamientos_fecha (avistamientos : List Avistamiento)
    (fecha : Option Fecha) : ℕ × List String :=
  match fecha with
  | some f =>
      ((avistamientos.filter
          (fun a => decide (fecha = none) || decide (a.fechahora.date = f))).length,
        [])
  | none => (0, [""])

/-- Claim C6: with a `None` date argument — the full-range-equivalent
call — the count query is claimed to return the length of the list.
The `isinstance(fecha, date)` guard sends `None` to the diagnostic
branch instead, which returns 0 on a one-element list. -/
theorem numero_avistamientos_fecha_none_cero :
    numero_avistamientos_fecha [av2019] none = (0, [""]) ∧
    [av2019].length = 1 := by
  constructor <;> rfl

/-- Claim C7: for a non-date target the query is claimed to reject the
call explicitly.  The code instead prints an empty diagnostic line and
returns the value 0 normally, for every input list. -/
theorem numero_avistamientos_fecha_none_imprime
    (avistamientos : List Avistamiento) :
    numero_avistamientos_fecha avistamientos none = (0, [""]) := rfl

/-! ### 3.1 Avistamiento de una forma con mayor duración -/

/-- Python `max(xs, key=k)` on a non-empty list: scans left to right and
replaces the current maximum only when the new key is strictly larger,
so the first of several maxima wins. -/
def pymaxKeyInt (key : Avistamiento → ℤ) (x : Avistamiento)
    (xs : List Avistamiento) : Avistamiento :=
  xs.foldl (fun cur y => if key cur < key y then y else cur) x

/-- Embeds `avistamiento_mayor_duracion` (source lines 166-187): filter
by shape, then `max(..., key=lambda x: x.duracion)` guarded by a
non-emptiness test; `None` when nothing matches. -/
def avistamiento_mayor_duracion (avistamientos : List Avistamiento)
    (forma : String) : Option Avistamiento :=
  match avistamientos.filter (fun a => a.forma = forma) with
  | [] => none
  | x :: xs => some (pymaxKeyInt (fun a => a.duracion) x xs)

/-- Embeds `avistamiento_mayor_duracion2` (source lines 188-191):
`max(generator, key=...)` without a `default`, which raises
`ValueError` when the generator is empty. -/
def avistamiento_mayor_duracion2 (avistamientos : List Avistamiento)
    (forma : String) : Except String Avistamiento :=
  match avistamientos.filter (fun a => a.forma = forma) with
  | [] => Except.error "ValueError: max() arg is an empty sequence"
  | x :: xs => Except.ok (pymaxKeyInt (fun a => a.duracion) x xs)

/-- Claim C4: when no sighting has the requested shape, both
longest-duration-by-shape variants are claimed to return `None` and
never raise.  The loop variant does return `None`, but the
comprehension variant calls `max` on an empty generator and raises
`ValueError`. -/
theorem avistamiento_mayor_duracion_sin_forma
    (avistamientos : List Avistamiento) (forma : String)
    (h : ∀ a ∈ avistamientos, a.forma ≠ forma) :
    avistamiento_mayor_duracion avistamientos forma = none ∧
    avistamiento_mayor_duracion2 avistamientos forma =
      Except.error "ValueError: max() arg is an empty sequence" := by
  have hf : avistamientos.filter (fun a => a.forma = forma) = [] := by
    rw [List.filter_eq_nil_iff]
    intro a ha
    simpa using h a ha
  constructor
  · simp [avistamiento_mayor_duracion, hf]
  · simp [avistamiento_mayor_duracion2, hf]

/-- Witness for C4: one sighting of shape "circle", queried for shape
"disk". -/
theorem avistamiento_mayor_duracion_sin_forma_witness :
    avistamiento_mayor_duracion [av2019] "disk" = none ∧
    avistamiento_mayor_duracion2 [av2019] "disk" =
      Except.error "ValueError: max() arg is an empty sequence" :=
  avistamiento_mayor_duracion_sin_forma [av2019] "disk" (by decide)

/-! ### 3.3 Avistamientos producidos entre dos fechas -/

/-- Python `datetime.min.date()`. -/
def datetime_min_date : Fecha := ⟨1, 1, 1⟩

/-- Python `datetime.max.date()`. -/
def datetime_max_date : Fecha := ⟨9999, 12, 31⟩

/-- Stable descending insertion used to model `list.sort(reverse=True)`:
an element moves past exactly those elements that are strictly smaller
than it, so equal elements keep their original relative order. -/
def insDesc (x : Avistamiento) : List Avistamiento → List Avistamiento
  | [] => [x]
  | y :: ys => if avLt x y then y :: insDesc x ys else x :: y :: ys

/-- Models Python `lista.sort(reverse=True)` on a list of
`Avistamiento`: a stable descending sort under the NamedTuple order
`avLt`. -/
def pySortDesc : List Avistamiento → List Avistamiento
  | [] => []
  | x :: xs => insDesc x (pySortDesc xs)

/-- Embeds `avistamientos_fechas` (source lines 227-259): `None` bounds
are replaced by `datetime.min.date()` / `datetime.max.date()`, the
filter is `fecha_inicial <= a.fechahora.date() < fecha_final` exactly as
on source line 257 (strict on the upper bound), and the result is
re-sorted descending. -/
def avistamientos_fechas (avistamientos : List Avistamiento)
    (fecha_inicial fecha_final : Option Fecha) : List Avistamiento :=
  let fi := fecha_inicial.getD datetime_min_date
  let ff := fecha_final.getD datetime_max_date
  pySortDesc
    (avistamientos.filter
      (fun a => fLeB fi a.fechahora.date && fLtB a.fechahora.date ff))

/-- Claim C3: the range query is claimed to keep both bounds inclusive
(as the docstring "ambas inclusive" also states).  A sighting dated
exactly `fecha_final` is nevertheless dropped, because source line 257
compares the upper bound with `<` instead of `<=`. -/
theorem avistamientos_fechas_excluye_fecha_final :
    avistamientos_fechas [av2020] (some ⟨2020, 1, 1⟩) (some ⟨2020, 1, 1⟩) = [] ∧
    av2020.fechahora.date = ⟨2020, 1, 1⟩ := by
  constructor <;> rfl

/-! ### 2.4 Avistamientos cercanos a una ubicación

The distance function `distancia_harvesine` is imported from the
`coordenadas` module, which is not part of this repository's sources;
the spec describes it as the haversine great-circle distance in
kilometres.  It is passed to the embedded functions as an explicit
parameter, so every theorem below holds for the haversine distance in
particular. -/

/-- Embeds `avistamientos_cercanos_ubicacion` (source lines 139-156):
iterate and `add` to a set every sighting strictly closer than
`radio`. -/
def avistamientos_cercanos_ubicacion
    (distancia_harvesine : Coordenadas → Coordenadas → ℚ)
    (avistamientos : List Avistamiento) (ubicacion : Coordenadas)
    (radio : ℚ) : Finset Avistamiento :=
  avistamientos.foldl
    (fun conjunto_avistamientos a =>
      if distancia_harvesine a.ubicacion ubicacion < radio then
        insert a conjunto_avistamientos
      else conjunto_avistamientos)
    ∅

/-- Embeds `avistamientos_cercanos_ubicacion2` (source lines 158-161):
the set comprehension over the same strict-inequality filter. -/
def avistamientos_cercanos_ubicacion2
    (distancia_harvesine : Coordenadas → Coordenadas → ℚ)
    (avistamientos : List Avistamiento) (ubicacion : Coordenadas)
    (radio : ℚ) : Finset Avistamiento :=
  (avistamientos.filter
    (fun a => decide (distancia_harvesine a.ubicacion ubicacion < radio))).toFinset

/-- Membership in the fold that builds the near-sightings set. -/
theorem cercanos_foldl_mem
    (distancia_harvesine : Coordenadas → Coordenadas → ℚ)
    (ubicacion : Coordenadas) (radio : ℚ) (l : List Avistamiento)
    (s : Finset Avistamiento) (x : Avistamiento) :
    x ∈ l.foldl
        (fun conjunto a =>
          if distancia_harvesine a.ubicacion ubicacion < radio then
            insert a conjunto
          else conjunto) s ↔
      x ∈ s ∨ (x ∈ l ∧ distancia_harvesine x.ubicacion ubicacion < radio) := by
  induction l generalizing s with
  | nil => simp
  | cons a l ih =>
      simp only [List.foldl_cons]
      rw [ih]
      by_cases hd : distancia_harvesine a.ubicacion ubicacion < radio
      · by_cases hx : x = a
        · subst hx; simp [hd]
        · simp [hd, hx]
      · by_cases hx : x = a
        · subst hx; simp [hd]
        · simp [hd, hx]

/-- Claim C9: both radius queries return exactly the set of input
records at strict haversine distance below the radius, duplicates
collapsing by structural equality.  Proved for every distance function,
hence for the haversine one of the external `coordenadas` module. -/
theorem avistamientos_cercanos_ubicacion_spec
    (distancia_harvesine : Coordenadas → Coordenadas → ℚ)
    (avistamientos : List Avistamiento) (ubicacion : Coordenadas)
    (radio : ℚ) :
    (∀ a, a ∈ avistamientos_cercanos_ubicacion distancia_harvesine
            avistamientos ubicacion radio ↔
        a ∈ avistamientos ∧ distancia_harvesine a.ubicacion ubicacion < radio) ∧
    avistamientos_cercanos_ubicacion2 distancia_harvesine
        avistamientos ubicacion radio =
      avistamientos_cercanos_ubicacion distancia_harvesine
        avistamientos ubicacion radio := by
  constructor
  · intro a
    rw [avistamientos_cercanos_ubicacion, cercanos_foldl_mem]
    simp
  · ext a
    rw [avistamientos_cercanos_ubicacion2, List.mem_toFinset, List.mem_filter,
      avistamientos_cercanos_ubicacion, cercanos_foldl_mem]
    simp

/-! ### 3.2 Avistamiento cercano a un punto con mayor duración -/

/-- Python `max(xs)` on a non-empty list under the natural NamedTuple
order: scans left to right, replacing the current maximum only on a
strictly greater element. -/
def pymaxAv (x : Avistamiento) (xs : List Avistamiento) : Avistamiento :=
  xs.foldl (fun cur y => if avLt cur y then y else cur) x

/-- Embeds `avistamiento_cercano_mayor_duracion` (source lines
194-217): filter by strict distance, then `max(av_cercanos)` — the
plain maximum under the record's natural order, with no `key` — and
return that whole record (`None` when nothing is near). -/
def avistamiento_cercano_mayor_duracion
    (distancia_harvesine : Coordenadas → Coordenadas → ℚ)
    (avistamientos : List Avistamiento) (coordenadas : Coordenadas)
    (radio : ℚ) : Option Avistamiento :=
  match avistamientos.filter
      (fun a => decide (distancia_harvesine a.ubicacion coordenadas < radio)) with
  | [] => none
  | x :: xs => some (pymaxAv x xs)

/-- An early sighting with the longest duration, located at
`coordReno`. -/
def avLargo : Avistamiento :=
  ⟨⟨2020, 1, 1, 10, 0⟩, "Reno", "NV", "circle", 120, "bright light", coordReno⟩

/-- A later sighting with a shorter duration, located at
`coordReno`. -/
def avCorto : Avistamiento :=
  ⟨⟨2020, 1, 2, 10, 0⟩, "Reno", "NV", "circle", 60, "steady", coordReno⟩

/-- Claim C5: the query is claimed to return the duration and comments
of the maximum-duration sighting within the radius.  The code instead
returns the whole record selected by `max(av_cercanos)` under the
natural timestamp-first order: with two sightings at the query point —
the earlier lasting 120 s, the later 60 s — it returns the later,
shorter sighting.  Stated for every distance function that gives a
point distance 0 from itself, as the spec requires of the haversine
distance. -/
theorem avistamiento_cercano_mayor_duracion_orden_natural
    (distancia_harvesine : Coordenadas → Coordenadas → ℚ)
    (h : distancia_harvesine coordReno coordReno = 0) :
    avistamiento_cercano_mayor_duracion distancia_harvesine
        [avLargo, avCorto] coordReno (1 / 2) = some avCorto ∧
    avCorto.duracion = 60 ∧ avLargo.duracion = 120 := by
  have h1 : distancia_harvesine avLargo.ubicacion coordReno < (1 / 2 : ℚ) := by
    show distancia_harvesine coordReno coordReno < (1 / 2 : ℚ)
    rw [h]; norm_num
  have h2 : distancia_harvesine avCorto.ubicacion coordReno < (1 / 2 : ℚ) := by
    show distancia_harvesine coordReno coordReno < (1 / 2 : ℚ)
    rw [h]; norm_num
  have b1 := decide_eq_true h1
  have b2 := decide_eq_true h2
  have hf : [avLargo, avCorto].filter
      (fun a => decide (distancia_harvesine a.ubicacion coordReno < (1 / 2 : ℚ)))
      = [avLargo, avCorto] := by
    simp only [List.filter, b1, b2]
  refine ⟨?_, rfl, rfl⟩
  rw [avistamiento_cercano_mayor_duracion, hf]
  rfl

/-- Witness for C5: the constant-zero distance function satisfies the
hypothesis. -/
theorem avistamiento_cercano_mayor_duracion_orden_natural_witness :
    avistamiento_cercano_mayor_duracion (fun _ _ => 0)
        [avLargo, avCorto] coordReno (1 / 2) = some avCorto ∧
    avCorto.duracion = 60 ∧ avLargo.duracion = 120 :=
  avistamiento_cercano_mayor_duracion_orden_natural (fun _ _ => 0) rfl

/-! ### 4.2 / 4.4 Month-name keyed groupings

`formas_por_mes` and `num_avistamientos_por_mes` call
`locale.setlocale(locale.LC_TIME, '')` and key their dictionaries by
`a.fechahora.strftime("%B").capitalize()`, so the keys come from the
active locale's month-name table.  The table is made an explicit
parameter: a run of the program corresponds to one choice of table. -/

/-- Python `str.capitalize()`: first character upper-cased, the rest
lower-cased. -/
def pyCapitalize (s : String) : String :=
  match s.data with
  | [] => ""
  | c :: cs => ⟨c.toUpper :: cs.map Char.toLower⟩

/-- Python `dt.strftime("%B")` under a given locale month-name table
(entry `m - 1` for month `m`). -/
def strftimeB (tabla : List String) (dt : DateTime) : String :=
  tabla.getD (dt.month - 1) ""

/-- Embeds `formas_por_mes` (source lines 380-405), parameterized by
the active locale's month-name table. -/
def formas_por_mes (tabla : List String)
    (avistamientos : List Avistamiento) : List (String × Finset String) :=
  avistamientos.foldl
    (fun forma_mes a =>
      let clave := pyCapitalize (strftimeB tabla a.fechahora)
      match dictGet forma_mes clave with
      | some s => dictSet forma_mes clave (insert a.forma s)
      | none => dictSet forma_mes clave {a.forma})
    []

/-- Embeds `num_avistamientos_por_mes` (source lines 445-470),
parameterized by the active locale's month-name table. -/
def num_avistamientos_por_mes (tabla : List String)
    (avistamientos : List Avistamiento) : List (String × ℕ) :=
  avistamientos.foldl
    (fun res a =>
      let clave := pyCapitalize (strftimeB tabla a.fechahora)
      match dictGet res clave with
      | some v => dictSet res clave (v + 1)
      | none => dictSet res clave 1)
    []

/-- The month names `strftime("%B")` produces under an English
locale. -/
def tabla_en : List String :=
  ["January", "February", "March", "April", "May", "June", "July",
   "August", "September", "October", "November", "December"]

/-- The month names `strftime("%B")` produces under a Spanish
locale. -/
def tabla_es : List String :=
  ["enero", "febrero", "marzo", "abril", "mayo", "junio", "julio",
   "agosto", "septiembre", "octubre", "noviembre", "diciembre"]

/-- Claim C10: the month-keyed groupings are claimed to be
deterministic across environments.  Running the same one-sighting input
under an English and under a Spanish `LC_TIME` locale yields different
mappings — keys "January" versus "Enero" — for both functions. -/
theorem formas_por_mes_depende_locale :
    formas_por_mes tabla_en [av2020] ≠ formas_por_mes tabla_es [av2020] ∧
    num_avistamientos_por_mes tabla_en [av2020] ≠
      num_avistamientos_por_mes tabla_es [av2020] := by
  constructor <;> decide

/-! ### 1.1 Lectura de datos

`lee_avistamientos` (source lines 32-53) is embedded at the level of
csv-split rows: the input is the list of rows of the file, each row the
list of its comma-separated fields.  `next(reader)` consumes the header
row — and raises `StopIteration` on a fully empty file — and the loop
unpacks each data row into exactly 8 fields, parsing the timestamp with
`datetime.strptime(.., "%m/%d/%Y %H:%M")`, the duration with `int` and
the coordinates with `float`; any failure raises `ValueError` and
aborts, so no partial record list escapes. -/

/-- Splits a character list at every occurrence of `c`, like Python
`str.split(c)` on a single-character separator. -/
def splitChar (c : Char) : List Char → List (List Char)
  | [] => [[]]
  | x :: xs =>
      if x = c then [] :: splitChar c xs
      else
        match splitChar c xs with
        | [] => [[x]]
        | y :: ys => (x :: y) :: ys

/-- True when the list is a non-empty string of decimal digits. -/
def esNumerico (l : List Char) : Bool :=
  !l.isEmpty && l.all Char.isDigit

/-- Value of a string of decimal digits. -/
def natOfDigits (l : List Char) : ℕ :=
  l.foldl (fun acc c => 10 * acc + (c.toNat - 48)) 0

/-- Models Python `int(s)` on the strings this program feeds it:
an optional sign followed by decimal digits. -/
def pyInt (s : String) : Option ℤ :=
  match s.data with
  | '-' :: rest => if esNumerico rest then some (-(natOfDigits rest : ℤ)) else none
  | '+' :: rest => if esNumerico rest then some ((natOfDigits rest : ℤ)) else none
  | l => if esNumerico l then some ((natOfDigits l : ℤ)) else none

/-- Unsigned part of Python `float(s)` on plain decimal literals:
digits with an optional decimal point, at least one digit present. -/
def pyFloatAbs (l : List Char) : Option ℚ :=
  match splitChar '.' l with
  | [ip] => if esNumerico ip then some ((natOfDigits ip : ℚ)) else none
  | [ip, fp] =>
      if (ip.all Char.isDigit && fp.all Char.isDigit)
          && !(ip.isEmpty && fp.isEmpty) then
        some ((natOfDigits ip : ℚ) + (natOfDigits fp : ℚ) / 10 ^ fp.length)
      else none
  | _ => none

/-- Models Python `float(s)` on plain decimal literals, as fed to it by
this program's csv columns. -/
def pyFloat (s : String) : Option ℚ :=
  match s.data with
  | '-' :: rest => (pyFloatAbs rest).map (fun q => -q)
  | '+' :: rest => pyFloatAbs rest
  | l => pyFloatAbs l

/-- One numeric field of a `strptime` format directive: at most
`maxLen` digits, value between `lo` and `hi`. -/
def parseCampo (l : List Char) (lo hi maxLen : ℕ) : Option ℕ :=
  if esNumerico l && decide (l.length ≤ maxLen) then
    let n := natOfDigits l
    if lo ≤ n ∧ n ≤ hi then some n else none
  else none

/-- Gregorian leap-year rule used by `datetime`. -/
def esBisiesto (y : ℕ) : Bool :=
  (y % 4 = 0 && y % 100 ≠ 0) || y % 400 = 0

/-- Number of days of month `m` of year `y`. -/
def diasEnMes (y m : ℕ) : ℕ :=
  if m = 2 then (if esBisiesto y then 29 else 28)
  else if m = 4 ∨ m = 6 ∨ m = 9 ∨ m = 11 then 30 else 31

/-- Models `datetime.strptime(cadena, "%m/%d/%Y %H:%M")` (the local
helper `parseFechahora` of source lines 29-30): month/day/year split on
`/`, hour/minute split on `:`, every directive 1-2 digits (4 for the
year) within its calendar range, and the day valid for the month. -/
def parseFechahora (cadena : String) : Option DateTime :=
  match splitChar ' ' cadena.data with
  | [d, t] =>
      match splitChar '/' d, splitChar ':' t with
      | [ms, ds, ys], [hs, mins] => do
          let m ← parseCampo ms 1 12 2
          let dd ← parseCampo ds 1 31 2
          let y ← parseCampo ys 1 9999 4
          let h ← parseCampo hs 0 23 2
          let mi ← parseCampo mins 0 59 2
          if dd ≤ diasEnMes y m then some ⟨y, m, dd, h, mi⟩ else none
      | _, _ => none
  | _ => none

/-- One iteration of the reading loop (source lines 47-52): unpack the
row into exactly 8 fields — a wrong field count raises `ValueError` —
then parse timestamp, duration and coordinates, each failure raising
`ValueError`. -/
def parseRow (registro : List String) : Except String Avistamiento :=
  match registro with
  | [cadena_fecha, city, state, shape, duration, comments, latitude, longitude] =>
      match parseFechahora cadena_fecha with
      | none => Except.error "ValueError: time data does not match format"
      | some fecha =>
          match pyInt duration with
          | none => Except.error "ValueError: invalid literal for int"
          | some dur =>
              match pyFloat latitude, pyFloat longitude with
              | some la, some lo =>
                  Except.ok ⟨fecha, city, state, shape, dur, comments, ⟨la, lo⟩⟩
              | _, _ => Except.error "ValueError: could not convert string to float"
  | _ => Except.error "ValueError: cannot unpack row with wrong field count"

/-- The data-row loop of `lee_avistamientos`: records are appended in
file order and the first bad row aborts the whole read. -/
def lee_go : List (List String) → Except String (List Avistamiento)
  | [] => Except.ok []
  | r :: rs =>
      match parseRow r with
      | Except.error e => Except.error e
      | Except.ok a =>
          match lee_go rs with
          | Except.error e => Except.error e
          | Except.ok l => Except.ok (a :: l)

/-- Embeds `lee_avistamientos` (source lines 32-53) on the csv-split
rows of the file: `next(reader)` skips the first row unconditionally
(raising `StopIteration` when there is none), then the loop parses the
data rows. -/
def lee_avistamientos : List (List String) → Except String (List Avistamiento)
  | [] => Except.error "StopIteration"
  | _ :: dataRows => lee_go dataRows

/-- The claim's characterization of a well-formed data row: exactly 8
fields, a parsable timestamp and numeric duration, latitude and
longitude. -/
def filaCorrecta (registro : List String) : Bool :=
  match registro with
  | [cadena_fecha, _, _, _, duration, _, latitude, longitude] =>
      (parseFechahora cadena_fecha).isSome && (pyInt duration).isSome
        && (pyFloat latitude).isSome && (pyFloat longitude).isSome
  | _ => false

/-- A row parses to a record exactly when it is well-formed in the
claim's sense. -/
theorem parseRow_ok_iff (registro : List String) :
    (∃ a, parseRow registro = Except.ok a) ↔ filaCorrecta registro = true := by
  obtain _ | ⟨x0, _ | ⟨x1, _ | ⟨x2, _ | ⟨x3, _ | ⟨x4, _ | ⟨x5, _ |
      ⟨x6, _ | ⟨x7, _ | ⟨x8, r⟩⟩⟩⟩⟩⟩⟩⟩⟩ := registro
  case nil => simp [parseRow, filaCorrecta]
  case cons.nil => simp [parseRow, filaCorrecta]
  case cons.cons.nil => simp [parseRow, filaCorrecta]
  case cons.cons.cons.nil => simp [parseRow, filaCorrecta]
  case cons.cons.cons.cons.nil => simp [parseRow, filaCorrecta]
  case cons.cons.cons.cons.cons.nil => simp [parseRow, filaCorrecta]
  case cons.cons.cons.cons.cons.cons.nil => simp [parseRow, filaCorrecta]
  case cons.cons.cons.cons.cons.cons.cons.nil => simp [parseRow, filaCorrecta]
  case cons.cons.cons.cons.cons.cons.cons.cons.cons =>
    simp [parseRow, filaCorrecta]
  case cons.cons.cons.cons.cons.cons.cons.cons.nil =>
    cases hfe : parseFechahora x0 with
    | none => simp [parseRow, filaCorrecta, hfe]
    | some fecha =>
        cases hdu : pyInt x4 with
        | none => simp [parseRow, filaCorrecta, hfe, hdu]
        | some dur =>
            cases hla : pyFloat x6 with
            | none => simp [parseRow, filaCorrecta, hfe, hdu, hla]
            | some la =>
                cases hlo : pyFloat x7 with
                | none => simp [parseRow, filaCorrecta, hfe, hdu, hla, hlo]
                | some lo => simp [parseRow, filaCorrecta, hfe, hdu, hla, hlo]

/-- Behaviour of the data-row loop: it succeeds exactly when every row
is well-formed, and then returns the parsed records in file order. -/
theorem lee_go_spec (rows : List (List String)) :
    ((∃ l, lee_go rows = Except.ok l) ↔ rows.all filaCorrecta = true) ∧
    ∀ l, lee_go rows = Except.ok l →
      l = rows.filterMap (fun r => (parseRow r).toOption) := by
  induction rows with
  | nil =>
      refine ⟨⟨fun _ => rfl, fun _ => ⟨[], rfl⟩⟩, fun l h => ?_⟩
      simpa [lee_go] using h.symm
  | cons r rs ih =>
      cases hr : parseRow r with
      | error e =>
          have hfc : filaCorrecta r = false := by
            cases hb : filaCorrecta r
            · rfl
            · rcases (parseRow_ok_iff r).mpr hb with ⟨a, ha⟩
              rw [hr] at ha
              cases ha
          constructor
          · simp [lee_go, hr, hfc]
          · intro l h
            simp [lee_go, hr] at h
      | ok a =>
          have hfc : filaCorrecta r = true := (parseRow_ok_iff r).mp ⟨a, hr⟩
          constructor
          · cases hgo : lee_go rs with
            | error e =>
                have hall : rs.all filaCorrecta ≠ true := by
                  intro hall
                  rcases ih.1.mpr hall with ⟨l, hl⟩
                  rw [hgo] at hl
                  cases hl
                simp [lee_go, hr, hgo, hfc, hall]
            | ok l =>
                have hall : rs.all filaCorrecta = true := ih.1.mp ⟨l, hgo⟩
                simp [lee_go, hr, hgo, hfc, hall]
          · intro l h
            cases hgo : lee_go rs with
            | error e =>
                rw [lee_go] at h
                simp [hr, hgo] at h
            | ok l2 =>
                have hl : l = a :: l2 := by
                  rw [lee_go] at h
                  simp [hr, hgo] at h
                  exact h.symm
                subst hl
                have ht : (parseRow r).toOption = some a := by
                  rw [hr]; rfl
                rw [ih.2 l2 hgo, List.filterMap_cons, ht]

/-- Claim C8: on any file of the documented format — one header row
followed by data rows — `lee_avistamientos` skips the header whatever
its content, succeeds exactly when every data row has 8 fields, a
parsable timestamp and numeric duration, latitude and longitude, fails
with an error otherwise (the `ValueError` playing the spec's
`FormatError` role) exposing no partial dataset, and on success returns
the parsed records in file order. -/
theorem lee_avistamientos_spec (cabecera : List String)
    (rows : List (List String)) :
    ((∃ l, lee_avistamientos (cabecera :: rows) = Except.ok l) ↔
        rows.all filaCorrecta = true) ∧
    ∀ l, lee_avistamientos (cabecera :: rows) = Except.ok l →
      l = rows.filterMap (fun r => (parseRow r).toOption) := by
  have h : lee_avistamientos (cabecera :: rows) = lee_go rows := rfl
  rw [h]
  exact lee_go_spec rows

/-- A well-formed csv data row, from the spec's worked example. -/
def filaReno : List String :=
  ["1/1/2020 10:00", "Reno", "NV", "circle", "60", "bright light",
   "39.5", "-119.8"]

/-- Witness for C8: a one-row file with a header parses successfully. -/
theorem lee_avistamientos_spec_witness :
    [filaReno].all filaCorrecta = true ∧
    (∃ l, lee_avistamientos (["cabecera"] :: [filaReno]) = Except.ok l) :=
  ⟨by decide, (lee_avistamientos_spec ["cabecera"] [filaReno]).1.mpr (by decide)⟩

end Avist
